import Mathlib

/-!
Verification of the ai-z hardware-telemetry engine against its
specification.  The visible repository slice is a thin Python binding
(`src/python/aiz/__init__.py`), its tests and a demo renderer; the engine
itself lives in the native module `_aiz_core`, absent from the slice.  The
engine components (Counter Store, Rate Sampler, RAM Reader, GPU vendor
adapters, GPU aggregator, Hardware Probe) are therefore modelled here from
the specification's contract, while the `Metrics` convenience aggregator is
embedded directly from `__init__.py`.

Raw counters (busy ticks, byte counts) are natural numbers; the monotonic
clock is modelled in integral ticks (milliseconds) as a natural number;
computed measurements are exact rationals (`Rat`); optional values (the
`Sample` of the data model) are `Option Rat`.
-/

/-- Modelled from the spec: per-stream mutable slot of the Counter Store
(native module `_aiz_core`, spec section 4.1): the last-seen raw counter
value with its monotonic timestamp, plus the previously computed value that
the sampler may return again when the elapsed interval is too small.  The
baseline is initialized absent. -/
structure StreamState where
  baseline : Option (Nat × Nat)
  lastValue : Option Rat
  deriving Repr, DecidableEq

/-- Modelled from the spec: a freshly created stream slot, no prior reading. -/
def initStream : StreamState :=
  { baseline := none, lastValue := none }

/-- Modelled from the spec: the two normalization families of rate-based
metrics (section 4.1): CPU percentages (clamped to [0,100]) and disk/network
throughput in MB/s. -/
inductive RateKind where
  | cpuPct
  | mbps
  deriving Repr, DecidableEq

/-- Modelled from the spec: the minimum sampling interval (in clock ticks)
guarding against division blow-up from rapid repeated calls (section 4.1);
the spec fixes its existence but not its value, so a representative
constant of 10 ticks is used. -/
def minInterval : Nat := 10

/-- Conversion factor from raw-bytes-per-clock-tick to MB/s. -/
def mbpsFactor : Rat := 1000 / 1048576

/-- Clamp a CPU percentage into [0, 100]. -/
def clampPct (x : Rat) : Rat := min 100 (max 0 x)

/-- Modelled from the spec: normalization of a raw-counter delta over an
elapsed interval (section 4.1): CPU as delta-ticks / elapsed x 100 clamped
to [0,100], throughput as delta-bytes / elapsed-seconds converted to MB/s. -/
def normalizeRate (kind : RateKind) (delta elapsed : Nat) : Rat :=
  match kind with
  | RateKind.cpuPct => clampPct (100 * (delta : Rat) / (elapsed : Rat))
  | RateKind.mbps => (delta : Rat) / (elapsed : Rat) * mbpsFactor

/-- Modelled from the spec: one call of the Rate Sampler on one stream of
the Counter Store (native module `_aiz_core`, section 4.1).  `reading` is
the raw counter read from the OS (`none` when the OS read failed, which is
swallowed); `now` is the current monotonic timestamp.  With no prior
baseline the call primes and returns `none`; with elapsed below the minimum
sampling interval it returns the previous computed value without touching
the baseline; with a decreased raw counter it re-baselines and returns
`none`; otherwise it normalizes the delta, stores the new baseline and
returns the computed value. -/
def rateStep (kind : RateKind) (st : StreamState) (reading : Option Nat)
    (now : Nat) : StreamState × Option Rat :=
  match reading with
  | none => (st, none)
  | some raw =>
    match st.baseline with
    | none => ({ baseline := some (raw, now), lastValue := none }, none)
    | some (lastRaw, lastTs) =>
      let elapsed := now - lastTs
      if elapsed < minInterval then
        (st, st.lastValue)
      else if raw < lastRaw then
        ({ baseline := some (raw, now), lastValue := none }, none)
      else
        let value := normalizeRate kind (raw - lastRaw) elapsed
        ({ baseline := some (raw, now), lastValue := some value }, some value)

/-- Modelled from the spec: stepping the per-core streams of the CPU
max-core sampler (section 4.1): the same rate algorithm runs independently
per logical core with a separate baseline per core index.  A core whose
reading is missing this call contributes no value and keeps its state. -/
def stepCores (now : Nat) : List StreamState → List Nat →
    List (StreamState × Option Rat)
  | [], _ => []
  | st :: sts, [] => (st, none) :: stepCores now sts []
  | st :: sts, r :: rs =>
    rateStep RateKind.cpuPct st (some r) now :: stepCores now sts rs

/-- Maximum over the per-core samples of the current window: `none` when no
core produced a value. -/
def maxOfSamples : List (Option Rat) → Option Rat
  | [] => none
  | none :: rest => maxOfSamples rest
  | some x :: rest =>
    match maxOfSamples rest with
    | none => some x
    | some y => some (max x y)

/-- Modelled from the spec: an instantaneous OS memory reading (section
4.2): total and available memory in GiB; `none` when the OS source is
entirely unreadable. -/
structure MemRead where
  total_gib : Rat
  avail_gib : Rat
  deriving Repr, DecidableEq

/-- RamUsage record of the data model (section 3). -/
structure RamUsage where
  used_gib : Rat
  total_gib : Rat
  used_pct : Rat
  deriving Repr, DecidableEq

/-- Modelled from the spec: the stateless RAM Reader (native module
`_aiz_core`, section 4.2): computes used = total - available and derives
the used percentage; returns `none` exactly when the OS source is
unreadable. -/
def sample_ram (m : Option MemRead) : Option RamUsage :=
  match m with
  | none => none
  | some r =>
    let used := r.total_gib - r.avail_gib
    some { used_gib := used, total_gib := r.total_gib,
           used_pct := 100 * used / r.total_gib }

/-- GpuVendor closed enumeration of the data model (section 3). -/
inductive GpuVendor where
  | Unknown
  | Nvidia
  | Amd
  | Intel
  deriving Repr, DecidableEq

/-- Modelled from the spec: a raw DRM/sysfs GPU device node as the generic
Linux enumerator discovers it (section 4.3): card path and driver name. -/
structure DrmCard where
  path : String
  driver : String
  deriving Repr, DecidableEq

/-- LinuxGpuDevice generic enumeration record of the data model (section 3):
index, DRM card path, driver name, vendor guess. -/
structure LinuxGpuDevice where
  index : Nat
  drm_card : String
  driver : String
  vendor : GpuVendor
  deriving Repr, DecidableEq

/-- NvmlTelemetry vendor detail payload of the data model (section 3). -/
structure NvmlTelemetry where
  util_pct : Rat
  vram_used_gib : Rat
  vram_total_gib : Rat
  temp_c : Rat
  power_watts : Rat
  deriving Repr, DecidableEq

/-- LinuxGpuTelemetry vendor detail payload of the data model (section 3),
supplied by the AMD SMI adapter. -/
structure LinuxGpuTelemetry where
  util_pct : Rat
  vram_used_gib : Rat
  vram_total_gib : Rat
  temp_c : Rat
  power_watts : Rat
  deriving Repr, DecidableEq

/-- Modelled from the spec: the NVIDIA vendor telemetry library as loaded at
call time (section 4.3): per device index, a name and a detail payload. -/
structure NvmlLib where
  devices : List (String × NvmlTelemetry)
  deriving Repr, DecidableEq

/-- Modelled from the spec: the AMD SMI vendor library as loaded at call
time (section 4.3): per device index, a name and a detail payload. -/
structure RocmLib where
  devices : List (String × LinuxGpuTelemetry)
  deriving Repr, DecidableEq

/-- Modelled from the spec: the GPU-visible state of the machine at one
aggregation call (section 4.3): the DRM device nodes, and each vendor
library (`none` when that library could not be loaded at all — an
independent failure domain per vendor). -/
structure GpuEnv where
  cards : List DrmCard
  nvml : Option NvmlLib
  rocm : Option RocmLib
  deriving Repr, DecidableEq

/-- GpuTelemetry unified per-device record of the data model (section 3). -/
structure GpuTelemetry where
  index : Nat
  name : String
  vendor : GpuVendor
  util_pct : Option Rat
  vram_used_gib : Option Rat
  vram_total_gib : Option Rat
  temp_c : Option Rat
  power_watts : Option Rat
  source : String
  deriving Repr, DecidableEq

/-- Modelled from the spec: the vendor guess of the generic enumerator,
derived from the driver name (section 4.3). -/
def vendorFromDriver (driver : String) : GpuVendor :=
  if driver = "nvidia" then GpuVendor.Nvidia
  else if driver = "amdgpu" then GpuVendor.Amd
  else if driver = "i915" ∨ driver = "xe" then GpuVendor.Intel
  else GpuVendor.Unknown

/-- Modelled from the spec: discovery-order indexing of the generic Linux
enumerator (section 4.3), assigning consecutive indices from `i`. -/
def enumFrom (i : Nat) : List DrmCard → List LinuxGpuDevice
  | [] => []
  | c :: cs =>
    { index := i, drm_card := c.path, driver := c.driver,
      vendor := vendorFromDriver c.driver } :: enumFrom (i + 1) cs

/-- Modelled from the spec: `enumerate_gpus()` — the generic enumeration
only, no vendor library required (section 4.4). -/
def enumerate_gpus (env : GpuEnv) : List LinuxGpuDevice :=
  enumFrom 0 env.cards

/-- Modelled from the spec: `gpu_count()` — the count of the generic
enumeration (section 4.4). -/
def gpu_count (env : GpuEnv) : Nat :=
  (enumerate_gpus env).length

/-- Modelled from the spec: `nvml_gpu_count()` — `none` exactly when the
NVIDIA vendor library could not be loaded, the device count otherwise
(section 4.3). -/
def nvml_gpu_count (env : GpuEnv) : Option Nat :=
  env.nvml.map (fun lib => lib.devices.length)

/-- Modelled from the spec: `rocm_gpu_count()` — `none` exactly when the
AMD SMI library could not be loaded, the device count otherwise
(section 4.3). -/
def rocm_gpu_count (env : GpuEnv) : Option Nat :=
  env.rocm.map (fun lib => lib.devices.length)

/-- Modelled from the spec: `nvml_read_telemetry(index)` (section 6). -/
def nvml_read_telemetry (env : GpuEnv) (i : Nat) : Option NvmlTelemetry :=
  env.nvml.bind (fun lib => (lib.devices[i]?).map Prod.snd)

/-- Modelled from the spec: `nvml_read_gpu_name(index)` (section 6). -/
def nvml_read_gpu_name (env : GpuEnv) (i : Nat) : Option String :=
  env.nvml.bind (fun lib => (lib.devices[i]?).map Prod.fst)

/-- Modelled from the spec: the generic-only unified record for one device
(section 4.4): only generic fields populated, detail fields `None`,
`source` marked generic. -/
def genericRecord (d : LinuxGpuDevice) : GpuTelemetry :=
  { index := d.index, name := d.driver, vendor := d.vendor,
    util_pct := none, vram_used_gib := none, vram_total_gib := none,
    temp_c := none, power_watts := none, source := "generic" }

/-- Modelled from the spec: the GPU Aggregator's merge of one generic
device with its vendor adapter's detail record, matched by vendor and index
(section 4.4): when a vendor detail record is found the optional fields are
filled and `source` identifies the vendor path, otherwise the record stays
generic-only. -/
def mergeDevice (env : GpuEnv) (d : LinuxGpuDevice) : GpuTelemetry :=
  match d.vendor with
  | GpuVendor.Nvidia =>
    match env.nvml.bind (fun lib => lib.devices[d.index]?) with
    | some (nm, t) =>
      { index := d.index, name := nm, vendor := d.vendor,
        util_pct := some t.util_pct, vram_used_gib := some t.vram_used_gib,
        vram_total_gib := some t.vram_total_gib, temp_c := some t.temp_c,
        power_watts := some t.power_watts, source := "nvml" }
    | none => genericRecord d
  | GpuVendor.Amd =>
    match env.rocm.bind (fun lib => lib.devices[d.index]?) with
    | some (nm, t) =>
      { index := d.index, name := nm, vendor := d.vendor,
        util_pct := some t.util_pct, vram_used_gib := some t.vram_used_gib,
        vram_total_gib := some t.vram_total_gib, temp_c := some t.temp_c,
        power_watts := some t.power_watts, source := "rocm" }
    | none => genericRecord d
  | _ => genericRecord d

/-- Modelled from the spec: `sample_all_gpus()` — merge vendor detail onto
every generically enumerated device, preserving discovery order
(section 4.4). -/
def sample_all_gpus (env : GpuEnv) : List GpuTelemetry :=
  (enumerate_gpus env).map (mergeDevice env)

/-- Modelled from the spec: `sample_gpu(index)` (section 4.4). -/
def sample_gpu (env : GpuEnv) (i : Nat) : Option GpuTelemetry :=
  ((enumerate_gpus env)[i]?).map (mergeDevice env)

/-- Modelled from the spec: everything the engine can observe from the OS
and vendor libraries during one sampling call: the monotonic clock, the raw
counters of each rate stream (`none` = OS read failed), the per-core busy
counters (`none` = the per-core source was unreadable), the memory reading
and the GPU-visible state.  Disk and network raw counters are already
summed across all devices/interfaces present (section 4.1). -/
structure Env where
  now : Nat
  cpuBusy : Option Nat
  coreBusy : Option (List Nat)
  diskReadRaw : Option Nat
  diskWriteRaw : Option Nat
  netRxRaw : Option Nat
  netTxRaw : Option Nat
  mem : Option MemRead
  gpu : GpuEnv
  deriving Repr, DecidableEq

/-- Modelled from the spec: the whole Counter Store (section 4.1): one slot
per scalar rate stream and one per logical core for the max-core sampler. -/
structure World where
  cpu : StreamState
  cores : List StreamState
  diskRead : StreamState
  diskWrite : StreamState
  netRx : StreamState
  netTx : StreamState
  deriving Repr, DecidableEq

/-- Modelled from the spec: the Counter Store at process start for a
machine with `n` logical cores: every baseline absent. -/
def initWorld (n : Nat) : World :=
  { cpu := initStream, cores := List.replicate n initStream,
    diskRead := initStream, diskWrite := initStream,
    netRx := initStream, netTx := initStream }

/-- Modelled from the spec: `sample_cpu()` — overall CPU utilization
(sections 4.1 and 6). -/
def sample_cpu (e : Env) (w : World) : World × Option Rat :=
  let r := rateStep RateKind.cpuPct w.cpu e.cpuBusy e.now
  ({ w with cpu := r.1 }, r.2)

/-- Modelled from the spec: `sample_cpu_max_core()` — the same algorithm
independently per logical core, reporting the single highest per-core
percentage of the current window (sections 4.1 and 6). -/
def sample_cpu_max_core (e : Env) (w : World) : World × Option Rat :=
  match e.coreBusy with
  | none => (w, none)
  | some raws =>
    let res := stepCores e.now w.cores raws
    ({ w with cores := res.map Prod.fst }, maxOfSamples (res.map Prod.snd))

/-- Modelled from the spec: `sample_disk_read()` — aggregated disk read
throughput (sections 4.1 and 6). -/
def sample_disk_read (e : Env) (w : World) : World × Option Rat :=
  let r := rateStep RateKind.mbps w.diskRead e.diskReadRaw e.now
  ({ w with diskRead := r.1 }, r.2)

/-- Modelled from the spec: `sample_disk_write()` — aggregated disk write
throughput (sections 4.1 and 6). -/
def sample_disk_write (e : Env) (w : World) : World × Option Rat :=
  let r := rateStep RateKind.mbps w.diskWrite e.diskWriteRaw e.now
  ({ w with diskWrite := r.1 }, r.2)

/-- Modelled from the spec: `sample_network_rx()` — aggregated network
receive throughput (sections 4.1 and 6). -/
def sample_network_rx (e : Env) (w : World) : World × Option Rat :=
  let r := rateStep RateKind.mbps w.netRx e.netRxRaw e.now
  ({ w with netRx := r.1 }, r.2)

/-- Modelled from the spec: `sample_network_tx()` — aggregated network
transmit throughput (sections 4.1 and 6). -/
def sample_network_tx (e : Env) (w : World) : World × Option Rat :=
  let r := rateStep RateKind.mbps w.netTx e.netTxRaw e.now
  ({ w with netTx := r.1 }, r.2)


/-- HardwareInfo static snapshot of the data model (section 3). -/
structure HardwareInfo where
  os_pretty : String
  kernel_version : String
  cpu_name : String
  cpu_physical_cores : Nat
  cpu_logical_cores : Nat
  ram_summary : String
  gpu_name : String
  cuda_version : Option String
  nvml_version : Option String
  rocm_version : Option String
  deriving Repr, DecidableEq

/-- Modelled from the spec: what the Hardware Probe can read from the OS
and the GPU subsystem at one call (section 4.5): each string source is
absent when unreadable. -/
structure OsEnv where
  osRelease : Option String
  kernel : Option String
  cpuModel : Option String
  physicalCores : Option Nat
  logicalCores : Option Nat
  ramSummary : Option String
  gpuName : Option String
  cudaVersion : Option String
  nvmlVersion : Option String
  rocmVersion : Option String
  deriving Repr, DecidableEq

/-- Modelled from the spec: a required probe field that is unreadable or
blank is still reported as a structurally valid, clearly marked unknown
value rather than failing the whole probe (section 7). -/
def orUnknown (s : Option String) : String :=
  match s with
  | none => "Unknown"
  | some v => if v = "" then "Unknown" else v

/-- Modelled from the spec: `probe_hardware()` — one-shot assembly of the
static machine identity, recomputed fresh on each call (section 4.5);
version strings are `none` when the corresponding stack is absent. -/
def probe_hardware (env : OsEnv) : HardwareInfo :=
  { os_pretty := orUnknown env.osRelease,
    kernel_version := orUnknown env.kernel,
    cpu_name := orUnknown env.cpuModel,
    cpu_physical_cores := env.physicalCores.getD 0,
    cpu_logical_cores := env.logicalCores.getD 0,
    ram_summary := orUnknown env.ramSummary,
    gpu_name := orUnknown env.gpuName,
    cuda_version := env.cudaVersion,
    nvml_version := env.nvmlVersion,
    rocm_version := env.rocmVersion }

/-- Modelled from the spec: `to_lines()` — the derived ordered sequence of
display lines over the already-probed fields (sections 3 and 4.5): one line
per always-present field (OS, kernel, CPU, core counts, RAM, GPU), then one
line per present optional version string.  Pure formatting, no re-probing:
the function's only input is the record. -/
def HardwareInfo.to_lines (hw : HardwareInfo) : List String :=
  ["OS: " ++ hw.os_pretty,
   "Kernel: " ++ hw.kernel_version,
   "CPU: " ++ hw.cpu_name,
   "Cores: " ++ toString hw.cpu_physical_cores ++ " physical, " ++
     toString hw.cpu_logical_cores ++ " logical",
   "RAM: " ++ hw.ram_summary,
   "GPU: " ++ hw.gpu_name] ++
  (match hw.cuda_version with
   | some v => ["CUDA: " ++ v]
   | none => []) ++
  (match hw.nvml_version with
   | some v => ["NVML: " ++ v]
   | none => []) ++
  (match hw.rocm_version with
   | some v => ["ROCm: " ++ v]
   | none => [])

/-- Method-call view of `to_lines()`: the record the call leaves behind
together with the lines it returns; the record is immutable state, so the
call returns it unchanged. -/
def to_lines_call (hw : HardwareInfo) : HardwareInfo × List String :=
  (hw, hw.to_lines)

/-- Value of one entry of the snapshot dictionary that `Metrics.sample`
builds (`src/python/aiz/__init__.py`). -/
inductive MetricValue where
  | num : Option Rat → MetricValue
  | ram : Option RamUsage → MetricValue
  | gpuList : List GpuTelemetry → MetricValue
  deriving Repr, DecidableEq

/-- The `Metrics` convenience class of `src/python/aiz/__init__.py`: its
only instance state is the `_primed` flag set by `prime`. -/
structure Metrics where
  primed : Bool
  deriving Repr, DecidableEq

/-- `Metrics.__init__` from `src/python/aiz/__init__.py`: `_primed` starts
false. -/
def Metrics.mk0 : Metrics := { primed := false }

/-- `Metrics.prime` from `src/python/aiz/__init__.py`: call the six
rate-based module-level samplers once each, discarding the values, then set
`_primed`. -/
def Metrics.prime (_m : Metrics) (e : Env) (w : World) : Metrics × World :=
  let w1 := (sample_cpu e w).1
  let w2 := (sample_cpu_max_core e w1).1
  let w3 := (sample_disk_read e w2).1
  let w4 := (sample_disk_write e w3).1
  let w5 := (sample_network_rx e w4).1
  let w6 := (sample_network_tx e w5).1
  ({ primed := true }, w6)

/-- `Metrics.sample` from `src/python/aiz/__init__.py`: build the snapshot
dictionary with exactly one call to each module-level sampler, in the
dictionary literal's evaluation order. -/
def Metrics.sample (_m : Metrics) (e : Env) (w : World) :
    World × List (String × MetricValue) :=
  let c := sample_cpu e w
  let mc := sample_cpu_max_core e c.1
  let ramRes := sample_ram e.mem
  let gpus := sample_all_gpus e.gpu
  let dr := sample_disk_read e mc.1
  let dw := sample_disk_write e dr.1
  let nrx := sample_network_rx e dw.1
  let ntx := sample_network_tx e nrx.1
  (ntx.1,
   [("cpu_pct", MetricValue.num c.2),
    ("cpu_max_core_pct", MetricValue.num mc.2),
    ("ram", MetricValue.ram ramRes),
    ("gpus", MetricValue.gpuList gpus),
    ("disk_read_mbps", MetricValue.num dr.2),
    ("disk_write_mbps", MetricValue.num dw.2),
    ("network_rx_mbps", MetricValue.num nrx.2),
    ("network_tx_mbps", MetricValue.num ntx.2)])

/-- Concrete sampling environment used as a test fixture: a first call at
tick 0 with every counter readable. -/
def envA : Env :=
  { now := 0, cpuBusy := some 50, coreBusy := some [50],
    diskReadRaw := some 100, diskWriteRaw := some 100,
    netRxRaw := some 100, netTxRaw := some 100,
    mem := some (MemRead.mk 16 8), gpu := GpuEnv.mk [] none none }

/-- Concrete sampling environment used as a test fixture: a second call one
minimum interval after `envA` with every counter increased. -/
def envB : Env :=
  { now := 10, cpuBusy := some 60, coreBusy := some [60],
    diskReadRaw := some 200, diskWriteRaw := some 200,
    netRxRaw := some 200, netTxRaw := some 200,
    mem := some (MemRead.mk 16 8), gpu := GpuEnv.mk [] none none }

theorem rateStep_read_failed (kind : RateKind) (st : StreamState) (now : Nat) :
    rateStep kind st none now = (st, none) := rfl

theorem rateStep_prime (kind : RateKind) (st : StreamState) (raw now : Nat)
    (h : st.baseline = none) :
    rateStep kind st (some raw) now =
      ({ baseline := some (raw, now), lastValue := none }, none) := by
  simp [rateStep, h]

theorem rateStep_val_unprimed (kind : RateKind) (st : StreamState)
    (reading : Option Nat) (now : Nat) (h : st.baseline = none) :
    (rateStep kind st reading now).2 = none := by
  cases reading with
  | none => rfl
  | some raw => simp [rateStep_prime kind st raw now h]

theorem rateStep_small (kind : RateKind) (st : StreamState) (raw now lr lt : Nat)
    (hb : st.baseline = some (lr, lt)) (hs : now - lt < minInterval) :
    rateStep kind st (some raw) now = (st, st.lastValue) := by
  simp [rateStep, hb, hs]

theorem rateStep_reset (kind : RateKind) (st : StreamState) (raw now lr lt : Nat)
    (hb : st.baseline = some (lr, lt)) (hgap : minInterval ≤ now - lt)
    (hdec : raw < lr) :
    rateStep kind st (some raw) now =
      ({ baseline := some (raw, now), lastValue := none }, none) := by
  simp [rateStep, hb, Nat.not_lt.mpr hgap, hdec]

theorem rateStep_delta (kind : RateKind) (st : StreamState) (raw now lr lt : Nat)
    (hb : st.baseline = some (lr, lt)) (hgap : minInterval ≤ now - lt)
    (hmono : lr ≤ raw) :
    rateStep kind st (some raw) now =
      ({ baseline := some (raw, now),
         lastValue := some (normalizeRate kind (raw - lr) (now - lt)) },
       some (normalizeRate kind (raw - lr) (now - lt))) := by
  simp [rateStep, hb, Nat.not_lt.mpr hgap, Nat.not_lt.mpr hmono]

theorem clampPct_nonneg (x : Rat) : 0 ≤ clampPct x := by
  simp only [clampPct, le_min_iff]
  constructor
  · norm_num
  · exact le_max_left 0 x

theorem clampPct_le_100 (x : Rat) : clampPct x ≤ 100 := min_le_left 100 _

theorem normalizeRate_nonneg (kind : RateKind) (d e : Nat) :
    0 ≤ normalizeRate kind d e := by
  cases kind with
  | cpuPct => exact clampPct_nonneg _
  | mbps =>
    apply mul_nonneg
    · exact div_nonneg (Nat.cast_nonneg d) (Nat.cast_nonneg e)
    · norm_num [mbpsFactor]

theorem normalizeRate_cpu_le_100 (d e : Nat) :
    normalizeRate RateKind.cpuPct d e ≤ 100 := clampPct_le_100 _

theorem stepCores_states (now : Nat) :
    ∀ (sts : List StreamState) (raws : List Nat),
      (stepCores now sts raws).length = sts.length
  | [], _ => rfl
  | _ :: sts, [] => congrArg Nat.succ (stepCores_states now sts [])
  | _ :: sts, _ :: raws => congrArg Nat.succ (stepCores_states now sts raws)

theorem stepCores_values_unprimed (now : Nat) :
    ∀ (sts : List StreamState) (raws : List Nat),
      (∀ s ∈ sts, s.baseline = none) →
      ∀ o ∈ (stepCores now sts raws).map Prod.snd, o = none := by
  intro sts
  induction sts with
  | nil => intro raws _ o ho; cases raws <;> simp [stepCores] at ho
  | cons s sts ih =>
    intro raws hall o ho
    cases raws with
    | nil =>
      simp only [stepCores, List.map_cons, List.mem_cons] at ho
      rcases ho with h | h
      · exact h
      · exact ih [] (fun t ht => hall t (List.mem_cons_of_mem s ht)) o h
    | cons r rs =>
      simp only [stepCores, List.map_cons, List.mem_cons] at ho
      rcases ho with h | h
      · rw [h]
        exact rateStep_val_unprimed _ _ _ _ (hall s (List.mem_cons_self s sts))
      · exact ih rs (fun t ht => hall t (List.mem_cons_of_mem s ht)) o h

theorem stepCores_prime (t : Nat) :
    ∀ (raws : List Nat),
      stepCores t (List.replicate raws.length initStream) raws =
        raws.map (fun r =>
          ({ baseline := some (r, t), lastValue := none }, none)) := by
  intro raws
  induction raws with
  | nil => rfl
  | cons r rs ih =>
    simp only [List.length_cons, List.replicate_succ, stepCores, List.map_cons]
    rw [rateStep_prime RateKind.cpuPct initStream r t rfl, ih]

theorem stepCores_second (t1 t2 : Nat) (hgap : minInterval ≤ t2 - t1) :
    ∀ {raws1 raws2 : List Nat}, List.Forall₂ (· ≤ ·) raws1 raws2 →
      stepCores t2
          (raws1.map (fun r =>
            StreamState.mk (some (r, t1)) none)) raws2 =
        List.zipWith (fun r1 r2 =>
          ({ baseline := some (r2, t2),
             lastValue :=
               some (normalizeRate RateKind.cpuPct (r2 - r1) (t2 - t1)) },
           some (normalizeRate RateKind.cpuPct (r2 - r1) (t2 - t1))))
          raws1 raws2 := by
  intro raws1 raws2 h
  induction h with
  | nil => rfl
  | @cons r1 r2 l1 l2 hr _ ih =>
    simp only [List.map_cons, stepCores, List.zipWith_cons_cons]
    rw [rateStep_delta RateKind.cpuPct _ r2 t2 r1 t1 rfl hgap hr, ih]

theorem stepCores_small (now : Nat) :
    ∀ (sts : List StreamState) (raws : List Nat),
      raws.length = sts.length →
      (∀ s ∈ sts, ∃ lr lt, s.baseline = some (lr, lt) ∧
        now - lt < minInterval) →
      stepCores now sts raws = sts.map (fun s => (s, s.lastValue)) := by
  intro sts
  induction sts with
  | nil => intro raws hlen _; cases raws <;> simp_all [stepCores]
  | cons s sts ih =>
    intro raws hlen hall
    cases raws with
    | nil => simp at hlen
    | cons r rs =>
      obtain ⟨lr, lt, hb, hs⟩ := hall s (List.mem_cons_self s sts)
      simp only [stepCores, List.map_cons]
      rw [rateStep_small RateKind.cpuPct s r now lr lt hb hs,
        ih rs (by simpa using hlen)
          (fun t ht => hall t (List.mem_cons_of_mem s ht))]

theorem maxOfSamples_all_none :
    ∀ (l : List (Option Rat)), (∀ o ∈ l, o = none) → maxOfSamples l = none := by
  intro l
  induction l with
  | nil => intro _; rfl
  | cons o rest ih =>
    intro h
    have h0 := h o (List.mem_cons_self o rest)
    subst h0
    exact ih (fun x hx => h x (List.mem_cons_of_mem _ hx))

theorem maxOfSamples_bounded_some (lo hi : Rat) :
    ∀ (l : List (Option Rat)), l ≠ [] →
      (∀ o ∈ l, ∃ x, o = some x ∧ lo ≤ x ∧ x ≤ hi) →
      ∃ m, maxOfSamples l = some m ∧ lo ≤ m ∧ m ≤ hi := by
  intro l
  induction l with
  | nil => intro h; exact absurd rfl h
  | cons o rest ih =>
    intro _ hall
    obtain ⟨x, hx, hlo, hhi⟩ := hall o (List.mem_cons_self o rest)
    subst hx
    cases hrest : maxOfSamples rest with
    | none =>
      exact ⟨x, by simp [maxOfSamples, hrest], hlo, hhi⟩
    | some y =>
      have hne : rest ≠ [] := by
        intro h0
        rw [h0] at hrest
        exact Option.noConfusion hrest
      obtain ⟨m, hm, hmlo, hmhi⟩ :=
        ih hne (fun t ht => hall t (List.mem_cons_of_mem _ ht))
      have hym : y = m := Option.some.inj (hrest.symm.trans hm)
      subst hym
      exact ⟨max x y, by simp [maxOfSamples, hrest], le_trans hlo (le_max_left x y),
        max_le hhi hmhi⟩

theorem mergeDevice_index (env : GpuEnv) (d : LinuxGpuDevice) :
    (mergeDevice env d).index = d.index := by
  unfold mergeDevice
  rcases d with ⟨i, p, dr, v⟩
  cases v <;> simp [genericRecord]
  · cases env.nvml.bind (fun lib => lib.devices[i]?) <;> simp [genericRecord]
  · cases env.rocm.bind (fun lib => lib.devices[i]?) <;> simp [genericRecord]

theorem enumFrom_map_index (i : Nat) :
    ∀ (cs : List DrmCard),
      (enumFrom i cs).map LinuxGpuDevice.index = List.range' i cs.length := by
  intro cs
  induction cs generalizing i with
  | nil => rfl
  | cons c cs ih => simp [enumFrom, List.range', ih]

theorem enumerate_map_index (env : GpuEnv) :
    (enumerate_gpus env).map LinuxGpuDevice.index =
      List.range' 0 env.cards.length := enumFrom_map_index 0 env.cards

theorem enumerate_length (env : GpuEnv) :
    (enumerate_gpus env).length = env.cards.length := by
  have h := congrArg List.length (enumerate_map_index env)
  simpa using h

theorem sample_all_map_index (env : GpuEnv) :
    (sample_all_gpus env).map GpuTelemetry.index =
      (enumerate_gpus env).map LinuxGpuDevice.index := by
  unfold sample_all_gpus
  rw [List.map_map]
  exact List.map_congr_left (fun d _ => mergeDevice_index env d)

/-- C2: every RamUsage record returned by `sample_ram` satisfies
0 ≤ used_gib ≤ total_gib, total_gib > 0 and
used_pct = 100 * used_gib / total_gib (exactly, in the rational model),
hence used_pct lies in [0, 100].  The hypotheses state that the OS memory
source was readable and well-formed (positive total, available between 0
and total). -/
theorem ram_invariant (m : Option MemRead) (r : MemRead) (hm : m = some r)
    (htot : 0 < r.total_gib) (hav0 : 0 ≤ r.avail_gib)
    (hav : r.avail_gib ≤ r.total_gib) :
    ∃ u, sample_ram m = some u ∧
      0 ≤ u.used_gib ∧ u.used_gib ≤ u.total_gib ∧ 0 < u.total_gib ∧
      u.used_pct = 100 * u.used_gib / u.total_gib ∧
      0 ≤ u.used_pct ∧ u.used_pct ≤ 100 := by
  subst hm
  have hused0 : (0 : Rat) ≤ r.total_gib - r.avail_gib := sub_nonneg.mpr hav
  have husedle : r.total_gib - r.avail_gib ≤ r.total_gib :=
    sub_le_self r.total_gib hav0
  refine ⟨_, rfl, hused0, husedle, htot, rfl, ?_, ?_⟩
  · exact div_nonneg (mul_nonneg (by norm_num) hused0) htot.le
  · rw [div_le_iff₀ htot]
    calc 100 * (r.total_gib - r.avail_gib)
        ≤ 100 * r.total_gib :=
          mul_le_mul_of_nonneg_left husedle (by norm_num)
      _ = 100 * r.total_gib := rfl

theorem ram_invariant_witness :
    some (MemRead.mk 16 8) = some (MemRead.mk 16 8) ∧
    (0 : Rat) < (MemRead.mk 16 8).total_gib ∧
    (0 : Rat) ≤ (MemRead.mk 16 8).avail_gib ∧
    (MemRead.mk 16 8).avail_gib ≤ (MemRead.mk 16 8).total_gib ∧
    ∃ u, sample_ram (some (MemRead.mk 16 8)) = some u ∧
      0 ≤ u.used_gib ∧ u.used_gib ≤ u.total_gib ∧ 0 < u.total_gib ∧
      u.used_pct = 100 * u.used_gib / u.total_gib ∧
      0 ≤ u.used_pct ∧ u.used_pct ≤ 100 :=
  ⟨rfl, by decide, by decide, by decide,
   ram_invariant (some (MemRead.mk 16 8)) (MemRead.mk 16 8) rfl (by decide)
     (by decide) (by decide)⟩

/-- C3: GPU aggregation consistency: the records of `sample_all_gpus` carry
the same indices in the same order as `enumerate_gpus` (merging never
reorders), every enumerated device has exactly one record of its index in
the aggregate, and `gpu_count` equals the length of the enumeration. -/
theorem gpu_aggregation_consistency (env : GpuEnv) :
    (sample_all_gpus env).map GpuTelemetry.index =
        (enumerate_gpus env).map LinuxGpuDevice.index ∧
    (∀ d ∈ enumerate_gpus env,
      (sample_all_gpus env).countP (fun g => g.index == d.index) = 1) ∧
    gpu_count env = (enumerate_gpus env).length := by
  refine ⟨sample_all_map_index env, ?_, rfl⟩
  intro d hd
  have hmem : d.index ∈ (enumerate_gpus env).map LinuxGpuDevice.index :=
    List.mem_map_of_mem LinuxGpuDevice.index hd
  have hcount :
      (sample_all_gpus env).countP (fun g => g.index == d.index) =
        ((sample_all_gpus env).map GpuTelemetry.index).count d.index := by
    rw [List.count_eq_countP, List.countP_map]
    rfl
  rw [hcount, sample_all_map_index env, enumerate_map_index env]
  rw [enumerate_map_index env] at hmem
  exact List.count_eq_one_of_mem (List.nodup_range' _ _) hmem

theorem gpu_aggregation_consistency_witness :
    (sample_all_gpus (GpuEnv.mk [DrmCard.mk "card0" "nvidia",
        DrmCard.mk "card1" "amdgpu"] none none)).map GpuTelemetry.index =
      (enumerate_gpus (GpuEnv.mk [DrmCard.mk "card0" "nvidia",
        DrmCard.mk "card1" "amdgpu"] none none)).map LinuxGpuDevice.index ∧
    (∀ d ∈ enumerate_gpus (GpuEnv.mk [DrmCard.mk "card0" "nvidia",
        DrmCard.mk "card1" "amdgpu"] none none),
      (sample_all_gpus (GpuEnv.mk [DrmCard.mk "card0" "nvidia",
        DrmCard.mk "card1" "amdgpu"] none none)).countP
          (fun g => g.index == d.index) = 1) ∧
    gpu_count (GpuEnv.mk [DrmCard.mk "card0" "nvidia",
        DrmCard.mk "card1" "amdgpu"] none none) =
      (enumerate_gpus (GpuEnv.mk [DrmCard.mk "card0" "nvidia",
        DrmCard.mk "card1" "amdgpu"] none none)).length :=
  gpu_aggregation_consistency
    (GpuEnv.mk [DrmCard.mk "card0" "nvidia", DrmCard.mk "card1" "amdgpu"]
      none none)

/-- C4: counter-reset handling: whenever the current raw reading is
strictly below the stored baseline value and a full minimum interval has
elapsed, the Rate Sampler re-baselines (stores the new raw value and
timestamp, clears the previous value) and returns `None` — never a
negative or wrapped rate. -/
theorem counter_reset_rebaseline (kind : RateKind) (st : StreamState)
    (raw now lr lt : Nat) (hb : st.baseline = some (lr, lt))
    (hgap : minInterval ≤ now - lt) (hdec : raw < lr) :
    rateStep kind st (some raw) now =
      ({ baseline := some (raw, now), lastValue := none }, none) :=
  rateStep_reset kind st raw now lr lt hb hgap hdec

theorem counter_reset_rebaseline_witness :
    rateStep RateKind.cpuPct initStream (some 100) 0 =
      ({ baseline := some (100, 0), lastValue := none }, none) ∧
    rateStep RateKind.cpuPct { baseline := some (100, 0), lastValue := none }
        (some 100) 10 =
      ({ baseline := some (100, 10),
         lastValue := some (normalizeRate RateKind.cpuPct 0 10) },
       some (normalizeRate RateKind.cpuPct 0 10)) ∧
    rateStep RateKind.cpuPct
        { baseline := some (100, 10),
          lastValue := some (normalizeRate RateKind.cpuPct 0 10) }
        (some 40) 20 =
      ({ baseline := some (40, 20), lastValue := none }, none) :=
  ⟨by simp [rateStep, initStream],
   by simp [rateStep, minInterval],
   counter_reset_rebaseline RateKind.cpuPct
     { baseline := some (100, 10),
       lastValue := some (normalizeRate RateKind.cpuPct 0 10) }
     40 20 100 10 rfl (by decide) (by decide)⟩

/-- C5: each vendor count function returns `None` exactly when its own
vendor library could not be loaded and the (non-negative) device count
otherwise, and its result does not depend on the other vendor library's
availability. -/
theorem vendor_count_contract (env : GpuEnv) :
    (nvml_gpu_count env = none ↔ env.nvml = none) ∧
    (rocm_gpu_count env = none ↔ env.rocm = none) ∧
    (∀ lib, env.nvml = some lib →
      nvml_gpu_count env = some lib.devices.length) ∧
    (∀ lib, env.rocm = some lib →
      rocm_gpu_count env = some lib.devices.length) ∧
    (∀ cards1 cards2 nv rocm1 rocm2,
      nvml_gpu_count (GpuEnv.mk cards1 nv rocm1) =
        nvml_gpu_count (GpuEnv.mk cards2 nv rocm2)) ∧
    (∀ cards1 cards2 nv1 nv2 rc,
      rocm_gpu_count (GpuEnv.mk cards1 nv1 rc) =
        rocm_gpu_count (GpuEnv.mk cards2 nv2 rc)) := by
  refine ⟨?_, ?_, ?_, ?_, ?_, ?_⟩ <;>
    simp [nvml_gpu_count, rocm_gpu_count]
  · exact fun lib h => ⟨lib, h, rfl⟩
  · exact fun lib h => ⟨lib, h, rfl⟩

theorem vendor_count_contract_witness :
    (nvml_gpu_count (GpuEnv.mk [] none (some (RocmLib.mk []))) = none ↔
      (GpuEnv.mk [] none (some (RocmLib.mk []))).nvml = none) ∧
    (rocm_gpu_count (GpuEnv.mk [] none (some (RocmLib.mk []))) = none ↔
      (GpuEnv.mk [] none (some (RocmLib.mk []))).rocm = none) ∧
    (∀ lib, (GpuEnv.mk [] none (some (RocmLib.mk []))).nvml = some lib →
      nvml_gpu_count (GpuEnv.mk [] none (some (RocmLib.mk []))) =
        some lib.devices.length) ∧
    (∀ lib, (GpuEnv.mk [] none (some (RocmLib.mk []))).rocm = some lib →
      rocm_gpu_count (GpuEnv.mk [] none (some (RocmLib.mk []))) =
        some lib.devices.length) ∧
    (∀ cards1 cards2 nv rocm1 rocm2,
      nvml_gpu_count (GpuEnv.mk cards1 nv rocm1) =
        nvml_gpu_count (GpuEnv.mk cards2 nv rocm2)) ∧
    (∀ cards1 cards2 nv1 nv2 rc,
      rocm_gpu_count (GpuEnv.mk cards1 nv1 rc) =
        rocm_gpu_count (GpuEnv.mk cards2 nv2 rc)) :=
  vendor_count_contract (GpuEnv.mk [] none (some (RocmLib.mk [])))

/-- C6: no sampler raises for ordinary unavailability: an OS/vendor read
failure is swallowed and reported as `None` by every rate-based sampler and
by the RAM reader, and the not-yet-primed case reports the same absent
value, so all kinds of unavailability collapse to `None` at the public
boundary (the samplers are total functions into optional values). -/
theorem unavailability_collapses (e : Env) (w : World) (kind : RateKind)
    (st : StreamState) (reading : Option Nat) (now : Nat) :
    (e.cpuBusy = none → sample_cpu e w = (w, none)) ∧
    (e.coreBusy = none → sample_cpu_max_core e w = (w, none)) ∧
    (e.diskReadRaw = none → sample_disk_read e w = (w, none)) ∧
    (e.diskWriteRaw = none → sample_disk_write e w = (w, none)) ∧
    (e.netRxRaw = none → sample_network_rx e w = (w, none)) ∧
    (e.netTxRaw = none → sample_network_tx e w = (w, none)) ∧
    sample_ram none = none ∧
    rateStep kind st none now = (st, none) ∧
    (st.baseline = none → (rateStep kind st reading now).2 = none) := by
  refine ⟨?_, ?_, ?_, ?_, ?_, ?_, rfl, rfl, ?_⟩
  · intro h; simp [sample_cpu, h, rateStep]
  · intro h; simp [sample_cpu_max_core, h]
  · intro h; simp [sample_disk_read, h, rateStep]
  · intro h; simp [sample_disk_write, h, rateStep]
  · intro h; simp [sample_network_rx, h, rateStep]
  · intro h; simp [sample_network_tx, h, rateStep]
  · intro h; exact rateStep_val_unprimed kind st reading now h

theorem unavailability_collapses_witness :
    (sample_cpu (Env.mk 0 none none none none none none none
        (GpuEnv.mk [] none none)) (initWorld 1) = (initWorld 1, none)) ∧
    (sample_cpu_max_core (Env.mk 0 none none none none none none none
        (GpuEnv.mk [] none none)) (initWorld 1) = (initWorld 1, none)) ∧
    (sample_disk_read (Env.mk 0 none none none none none none none
        (GpuEnv.mk [] none none)) (initWorld 1) = (initWorld 1, none)) ∧
    (sample_disk_write (Env.mk 0 none none none none none none none
        (GpuEnv.mk [] none none)) (initWorld 1) = (initWorld 1, none)) ∧
    (sample_network_rx (Env.mk 0 none none none none none none none
        (GpuEnv.mk [] none none)) (initWorld 1) = (initWorld 1, none)) ∧
    (sample_network_tx (Env.mk 0 none none none none none none none
        (GpuEnv.mk [] none none)) (initWorld 1) = (initWorld 1, none)) ∧
    sample_ram none = none ∧
    rateStep RateKind.cpuPct initStream none 0 = (initStream, none) ∧
    (rateStep RateKind.cpuPct initStream (some 5) 0).2 = none := by
  obtain ⟨h1, h2, h3, h4, h5, h6, h7, h8, h9⟩ :=
    unavailability_collapses
      (Env.mk 0 none none none none none none none (GpuEnv.mk [] none none))
      (initWorld 1) RateKind.cpuPct initStream (some 5) 0
  exact ⟨h1 rfl, h2 rfl, h3 rfl, h4 rfl, h5 rfl, h6 rfl, h7, h8, h9 rfl⟩

/-- C7: minimum-interval idempotence: when a rate-based sampler is called
again before a full minimum interval has elapsed since the stored baseline
timestamp, the Counter Store state is left exactly as it was (the baseline
is not corrupted) and the call returns the previously computed value (or
`None` when none exists). -/
theorem min_interval_idempotent (e : Env) (w : World) :
    (∀ lr lt raw, w.cpu.baseline = some (lr, lt) → e.cpuBusy = some raw →
      e.now - lt < minInterval → sample_cpu e w = (w, w.cpu.lastValue)) ∧
    (∀ raws, e.coreBusy = some raws → raws.length = w.cores.length →
      (∀ s ∈ w.cores, ∃ lr lt, s.baseline = some (lr, lt) ∧
        e.now - lt < minInterval) →
      sample_cpu_max_core e w =
        (w, maxOfSamples (w.cores.map StreamState.lastValue))) ∧
    (∀ lr lt raw, w.diskRead.baseline = some (lr, lt) →
      e.diskReadRaw = some raw → e.now - lt < minInterval →
      sample_disk_read e w = (w, w.diskRead.lastValue)) ∧
    (∀ lr lt raw, w.diskWrite.baseline = some (lr, lt) →
      e.diskWriteRaw = some raw → e.now - lt < minInterval →
      sample_disk_write e w = (w, w.diskWrite.lastValue)) ∧
    (∀ lr lt raw, w.netRx.baseline = some (lr, lt) →
      e.netRxRaw = some raw → e.now - lt < minInterval →
      sample_network_rx e w = (w, w.netRx.lastValue)) ∧
    (∀ lr lt raw, w.netTx.baseline = some (lr, lt) →
      e.netTxRaw = some raw → e.now - lt < minInterval →
      sample_network_tx e w = (w, w.netTx.lastValue)) := by
  refine ⟨?_, ?_, ?_, ?_, ?_, ?_⟩
  · intro lr lt raw hb hr hs
    simp [sample_cpu, hr, rateStep_small RateKind.cpuPct w.cpu raw e.now lr lt hb hs]
  · intro raws hcb hlen hall
    simp only [sample_cpu_max_core, hcb,
      stepCores_small e.now w.cores raws hlen hall, List.map_map]
    simp [Function.comp_def]
  · intro lr lt raw hb hr hs
    simp [sample_disk_read, hr,
      rateStep_small RateKind.mbps w.diskRead raw e.now lr lt hb hs]
  · intro lr lt raw hb hr hs
    simp [sample_disk_write, hr,
      rateStep_small RateKind.mbps w.diskWrite raw e.now lr lt hb hs]
  · intro lr lt raw hb hr hs
    simp [sample_network_rx, hr,
      rateStep_small RateKind.mbps w.netRx raw e.now lr lt hb hs]
  · intro lr lt raw hb hr hs
    simp [sample_network_tx, hr,
      rateStep_small RateKind.mbps w.netTx raw e.now lr lt hb hs]

theorem min_interval_idempotent_witness :
    (sample_cpu
        (Env.mk 5 (some 110) (some [6]) (some 3) (some 3) (some 3) (some 3)
          none (GpuEnv.mk [] none none))
        (World.mk (StreamState.mk (some (100, 0)) (some 7))
          [StreamState.mk (some (5, 0)) (some 42)]
          (StreamState.mk (some (1, 0)) none)
          (StreamState.mk (some (1, 0)) none)
          (StreamState.mk (some (1, 0)) none)
          (StreamState.mk (some (1, 0)) none)) =
      (World.mk (StreamState.mk (some (100, 0)) (some 7))
          [StreamState.mk (some (5, 0)) (some 42)]
          (StreamState.mk (some (1, 0)) none)
          (StreamState.mk (some (1, 0)) none)
          (StreamState.mk (some (1, 0)) none)
          (StreamState.mk (some (1, 0)) none), some 7)) ∧
    (sample_cpu_max_core
        (Env.mk 5 (some 110) (some [6]) (some 3) (some 3) (some 3) (some 3)
          none (GpuEnv.mk [] none none))
        (World.mk (StreamState.mk (some (100, 0)) (some 7))
          [StreamState.mk (some (5, 0)) (some 42)]
          (StreamState.mk (some (1, 0)) none)
          (StreamState.mk (some (1, 0)) none)
          (StreamState.mk (some (1, 0)) none)
          (StreamState.mk (some (1, 0)) none)) =
      (World.mk (StreamState.mk (some (100, 0)) (some 7))
          [StreamState.mk (some (5, 0)) (some 42)]
          (StreamState.mk (some (1, 0)) none)
          (StreamState.mk (some (1, 0)) none)
          (StreamState.mk (some (1, 0)) none)
          (StreamState.mk (some (1, 0)) none),
        maxOfSamples ([StreamState.mk (some (5, 0)) (some 42)].map
          StreamState.lastValue))) ∧
    (sample_disk_read
        (Env.mk 5 (some 110) (some [6]) (some 3) (some 3) (some 3) (some 3)
          none (GpuEnv.mk [] none none))
        (World.mk (StreamState.mk (some (100, 0)) (some 7))
          [StreamState.mk (some (5, 0)) (some 42)]
          (StreamState.mk (some (1, 0)) none)
          (StreamState.mk (some (1, 0)) none)
          (StreamState.mk (some (1, 0)) none)
          (StreamState.mk (some (1, 0)) none)) =
      (World.mk (StreamState.mk (some (100, 0)) (some 7))
          [StreamState.mk (some (5, 0)) (some 42)]
          (StreamState.mk (some (1, 0)) none)
          (StreamState.mk (some (1, 0)) none)
          (StreamState.mk (some (1, 0)) none)
          (StreamState.mk (some (1, 0)) none), none)) := by
  obtain ⟨h1, h2, h3, _h4, _h5, _h6⟩ :=
    min_interval_idempotent
      (Env.mk 5 (some 110) (some [6]) (some 3) (some 3) (some 3) (some 3)
        none (GpuEnv.mk [] none none))
      (World.mk (StreamState.mk (some (100, 0)) (some 7))
        [StreamState.mk (some (5, 0)) (some 42)]
        (StreamState.mk (some (1, 0)) none)
        (StreamState.mk (some (1, 0)) none)
        (StreamState.mk (some (1, 0)) none)
        (StreamState.mk (some (1, 0)) none))
  refine ⟨h1 100 0 110 rfl rfl (by decide), ?_, h3 1 0 3 rfl rfl (by decide)⟩
  exact h2 [6] rfl rfl (by
    intro s hs
    rw [List.mem_singleton] at hs
    subst hs
    exact ⟨5, 0, rfl, by decide⟩)

theorem orUnknown_ne_empty (s : Option String) : orUnknown s ≠ "" := by
  cases s with
  | none => decide
  | some v =>
    simp only [orUnknown]
    split
    · decide
    · next h => exact h

/-- C8: on any reachable host the probe returns a record whose `os_pretty`
and `cpu_name` are non-empty strings (unreadable or blank sources are
reported as a marked unknown value), and `to_lines` on that record has at
least 6 lines, one per always-present field. -/
theorem probe_hardware_contract (env : OsEnv) :
    (probe_hardware env).os_pretty ≠ "" ∧
    (probe_hardware env).cpu_name ≠ "" ∧
    6 ≤ (HardwareInfo.to_lines (probe_hardware env)).length := by
  refine ⟨orUnknown_ne_empty env.osRelease, orUnknown_ne_empty env.cpuModel, ?_⟩
  simp only [HardwareInfo.to_lines, List.length_append, List.length_cons,
    List.length_nil]
  omega

/-- C9: `to_lines` is a pure, deterministic derivation over the ten probed
fields of a HardwareInfo record: any two records that agree on every field
produce identical line sequences, and a `to_lines` call leaves the record
unchanged, so repeated calls on the same record yield the same lines. -/
theorem to_lines_pure (hw hw2 : HardwareInfo)
    (h1 : hw.os_pretty = hw2.os_pretty)
    (h2 : hw.kernel_version = hw2.kernel_version)
    (h3 : hw.cpu_name = hw2.cpu_name)
    (h4 : hw.cpu_physical_cores = hw2.cpu_physical_cores)
    (h5 : hw.cpu_logical_cores = hw2.cpu_logical_cores)
    (h6 : hw.ram_summary = hw2.ram_summary)
    (h7 : hw.gpu_name = hw2.gpu_name)
    (h8 : hw.cuda_version = hw2.cuda_version)
    (h9 : hw.nvml_version = hw2.nvml_version)
    (h10 : hw.rocm_version = hw2.rocm_version) :
    HardwareInfo.to_lines hw = HardwareInfo.to_lines hw2 ∧
    to_lines_call hw = (hw, HardwareInfo.to_lines hw) ∧
    to_lines_call (to_lines_call hw).1 = to_lines_call hw := by
  obtain rfl : hw = hw2 := by
    cases hw; cases hw2; simp_all
  exact ⟨rfl, rfl, rfl⟩

theorem to_lines_pure_witness :
    HardwareInfo.to_lines
        (HardwareInfo.mk "Ubuntu 22.04" "6.5" "Ryzen" 8 16 "32 GiB" "RTX"
          none none none) =
      HardwareInfo.to_lines
        (HardwareInfo.mk "Ubuntu 22.04" "6.5" "Ryzen" 8 16 "32 GiB" "RTX"
          none none none) ∧
    to_lines_call
        (HardwareInfo.mk "Ubuntu 22.04" "6.5" "Ryzen" 8 16 "32 GiB" "RTX"
          none none none) =
      ((HardwareInfo.mk "Ubuntu 22.04" "6.5" "Ryzen" 8 16 "32 GiB" "RTX"
          none none none),
       HardwareInfo.to_lines
        (HardwareInfo.mk "Ubuntu 22.04" "6.5" "Ryzen" 8 16 "32 GiB" "RTX"
          none none none)) ∧
    to_lines_call
        (to_lines_call
          (HardwareInfo.mk "Ubuntu 22.04" "6.5" "Ryzen" 8 16 "32 GiB" "RTX"
            none none none)).1 =
      to_lines_call
        (HardwareInfo.mk "Ubuntu 22.04" "6.5" "Ryzen" 8 16 "32 GiB" "RTX"
          none none none) :=
  to_lines_pure
    (HardwareInfo.mk "Ubuntu 22.04" "6.5" "Ryzen" 8 16 "32 GiB" "RTX"
      none none none)
    (HardwareInfo.mk "Ubuntu 22.04" "6.5" "Ryzen" 8 16 "32 GiB" "RTX"
      none none none)
    rfl rfl rfl rfl rfl rfl rfl rfl rfl rfl

theorem zipWith_pair_snd_mem (g : Nat → Nat → Rat) (h : Nat → Nat → StreamState) :
    ∀ (l1 l2 : List Nat) (o : Option Rat),
      o ∈ (List.zipWith (fun r1 r2 => (h r1 r2, some (g r1 r2))) l1 l2).map
        Prod.snd →
      ∃ r1 r2, o = some (g r1 r2) := by
  intro l1
  induction l1 with
  | nil => intro l2 o ho; simp at ho
  | cons a l1 ih =>
    intro l2 o ho
    cases l2 with
    | nil => simp at ho
    | cons b l2 =>
      simp only [List.zipWith_cons_cons, List.map_cons, List.mem_cons] at ho
      rcases ho with h0 | h0
      · exact ⟨a, b, h0⟩
      · exact ih l2 o h0

/-- C1: for every rate-based sampler, the first call after process start
returns the absent value, and a second call made at least one minimum
sampling interval later — with successful, monotone counter readings —
returns a numeric value within the metric's valid range (CPU percentages
in [0,100], disk/network throughput nonnegative). -/
theorem prime_then_measure (e1 e2 : Env) (n : Nat)
    (cb1 cb2 dr1 dr2 dw1 dw2 nr1 nr2 nt1 nt2 : Nat)
    (raws1 raws2 : List Nat)
    (hgap : minInterval ≤ e2.now - e1.now)
    (hcb1 : e1.cpuBusy = some cb1) (hcb2 : e2.cpuBusy = some cb2)
    (hcb : cb1 ≤ cb2)
    (hcr1 : e1.coreBusy = some raws1) (hcr2 : e2.coreBusy = some raws2)
    (hcr : List.Forall₂ (fun a b => a ≤ b) raws1 raws2)
    (hlen : raws1.length = n) (hn : 0 < n)
    (hdr1 : e1.diskReadRaw = some dr1) (hdr2 : e2.diskReadRaw = some dr2)
    (hdr : dr1 ≤ dr2)
    (hdw1 : e1.diskWriteRaw = some dw1) (hdw2 : e2.diskWriteRaw = some dw2)
    (hdw : dw1 ≤ dw2)
    (hnr1 : e1.netRxRaw = some nr1) (hnr2 : e2.netRxRaw = some nr2)
    (hnr : nr1 ≤ nr2)
    (hnt1 : e1.netTxRaw = some nt1) (hnt2 : e2.netTxRaw = some nt2)
    (hnt : nt1 ≤ nt2) :
    (sample_cpu e1 (initWorld n)).2 = none ∧
    (sample_cpu_max_core e1 (initWorld n)).2 = none ∧
    (sample_disk_read e1 (initWorld n)).2 = none ∧
    (sample_disk_write e1 (initWorld n)).2 = none ∧
    (sample_network_rx e1 (initWorld n)).2 = none ∧
    (sample_network_tx e1 (initWorld n)).2 = none ∧
    (∃ v, (sample_cpu e2 (sample_cpu e1 (initWorld n)).1).2 = some v ∧
      0 ≤ v ∧ v ≤ 100) ∧
    (∃ v, (sample_cpu_max_core e2
        (sample_cpu_max_core e1 (initWorld n)).1).2 = some v ∧
      0 ≤ v ∧ v ≤ 100) ∧
    (∃ v, (sample_disk_read e2 (sample_disk_read e1 (initWorld n)).1).2 =
      some v ∧ 0 ≤ v) ∧
    (∃ v, (sample_disk_write e2 (sample_disk_write e1 (initWorld n)).1).2 =
      some v ∧ 0 ≤ v) ∧
    (∃ v, (sample_network_rx e2 (sample_network_rx e1 (initWorld n)).1).2 =
      some v ∧ 0 ≤ v) ∧
    (∃ v, (sample_network_tx e2 (sample_network_tx e1 (initWorld n)).1).2 =
      some v ∧ 0 ≤ v) := by
  subst hlen
  refine ⟨rateStep_val_unprimed _ _ _ _ rfl, ?_,
    rateStep_val_unprimed _ _ _ _ rfl, rateStep_val_unprimed _ _ _ _ rfl,
    rateStep_val_unprimed _ _ _ _ rfl, rateStep_val_unprimed _ _ _ _ rfl,
    ?_, ?_, ?_, ?_, ?_, ?_⟩
  · simp only [sample_cpu_max_core, hcr1, initWorld]
    exact maxOfSamples_all_none _ (stepCores_values_unprimed e1.now _ raws1
      (fun s hs => by rw [List.eq_of_mem_replicate hs]; rfl))
  · refine ⟨normalizeRate RateKind.cpuPct (cb2 - cb1) (e2.now - e1.now), ?_,
      normalizeRate_nonneg _ _ _, normalizeRate_cpu_le_100 _ _⟩
    simp only [sample_cpu, hcb1, hcb2]
    rw [rateStep_prime RateKind.cpuPct _ cb1 e1.now rfl]
    rw [rateStep_delta RateKind.cpuPct _ cb2 e2.now cb1 e1.now rfl hgap hcb]
  · have hw1 : (sample_cpu_max_core e1 (initWorld raws1.length)).1 =
        { cpu := initStream,
          cores := raws1.map (fun r => StreamState.mk (some (r, e1.now)) none),
          diskRead := initStream, diskWrite := initStream,
          netRx := initStream, netTx := initStream } := by
      simp only [sample_cpu_max_core, hcr1, initWorld]
      rw [stepCores_prime e1.now raws1]
      simp [Function.comp_def]
    have hval : (sample_cpu_max_core e2
        (sample_cpu_max_core e1 (initWorld raws1.length)).1).2 =
        maxOfSamples ((List.zipWith (fun r1 r2 =>
          (StreamState.mk (some (r2, e2.now))
            (some (normalizeRate RateKind.cpuPct (r2 - r1)
              (e2.now - e1.now))),
           some (normalizeRate RateKind.cpuPct (r2 - r1) (e2.now - e1.now))))
          raws1 raws2).map Prod.snd) := by
      rw [hw1]
      simp only [sample_cpu_max_core, hcr2]
      rw [stepCores_second e1.now e2.now hgap hcr]
    rw [hval]
    apply maxOfSamples_bounded_some 0 100
    · have hlen2 : raws2.length = raws1.length := hcr.length_eq.symm
      apply List.length_pos_iff_ne_nil.mp
      rw [List.length_map, List.length_zipWith, hlen2]
      omega
    · intro o ho
      obtain ⟨r1, r2, rfl⟩ := zipWith_pair_snd_mem
        (fun r1 r2 => normalizeRate RateKind.cpuPct (r2 - r1)
          (e2.now - e1.now))
        (fun r1 r2 => StreamState.mk (some (r2, e2.now))
          (some (normalizeRate RateKind.cpuPct (r2 - r1) (e2.now - e1.now))))
        raws1 raws2 o ho
      exact ⟨_, rfl, normalizeRate_nonneg _ _ _, normalizeRate_cpu_le_100 _ _⟩
  · refine ⟨normalizeRate RateKind.mbps (dr2 - dr1) (e2.now - e1.now), ?_,
      normalizeRate_nonneg _ _ _⟩
    simp only [sample_disk_read, hdr1, hdr2]
    rw [rateStep_prime RateKind.mbps _ dr1 e1.now rfl]
    rw [rateStep_delta RateKind.mbps _ dr2 e2.now dr1 e1.now rfl hgap hdr]
  · refine ⟨normalizeRate RateKind.mbps (dw2 - dw1) (e2.now - e1.now), ?_,
      normalizeRate_nonneg _ _ _⟩
    simp only [sample_disk_write, hdw1, hdw2]
    rw [rateStep_prime RateKind.mbps _ dw1 e1.now rfl]
    rw [rateStep_delta RateKind.mbps _ dw2 e2.now dw1 e1.now rfl hgap hdw]
  · refine ⟨normalizeRate RateKind.mbps (nr2 - nr1) (e2.now - e1.now), ?_,
      normalizeRate_nonneg _ _ _⟩
    simp only [sample_network_rx, hnr1, hnr2]
    rw [rateStep_prime RateKind.mbps _ nr1 e1.now rfl]
    rw [rateStep_delta RateKind.mbps _ nr2 e2.now nr1 e1.now rfl hgap hnr]
  · refine ⟨normalizeRate RateKind.mbps (nt2 - nt1) (e2.now - e1.now), ?_,
      normalizeRate_nonneg _ _ _⟩
    simp only [sample_network_tx, hnt1, hnt2]
    rw [rateStep_prime RateKind.mbps _ nt1 e1.now rfl]
    rw [rateStep_delta RateKind.mbps _ nt2 e2.now nt1 e1.now rfl hgap hnt]

theorem prime_then_measure_witness :
    (sample_cpu envA (initWorld 1)).2 = none ∧
    (sample_cpu_max_core envA (initWorld 1)).2 = none ∧
    (sample_disk_read envA (initWorld 1)).2 = none ∧
    (sample_disk_write envA (initWorld 1)).2 = none ∧
    (sample_network_rx envA (initWorld 1)).2 = none ∧
    (sample_network_tx envA (initWorld 1)).2 = none ∧
    (∃ v, (sample_cpu envB (sample_cpu envA (initWorld 1)).1).2 = some v ∧
      0 ≤ v ∧ v ≤ 100) ∧
    (∃ v, (sample_cpu_max_core envB
        (sample_cpu_max_core envA (initWorld 1)).1).2 = some v ∧
      0 ≤ v ∧ v ≤ 100) ∧
    (∃ v, (sample_disk_read envB (sample_disk_read envA (initWorld 1)).1).2 =
      some v ∧ 0 ≤ v) ∧
    (∃ v, (sample_disk_write envB (sample_disk_write envA (initWorld 1)).1).2 =
      some v ∧ 0 ≤ v) ∧
    (∃ v, (sample_network_rx envB
        (sample_network_rx envA (initWorld 1)).1).2 = some v ∧ 0 ≤ v) ∧
    (∃ v, (sample_network_tx envB
        (sample_network_tx envA (initWorld 1)).1).2 = some v ∧ 0 ≤ v) :=
  prime_then_measure envA envB 1 50 60 100 200 100 200 100 200 100 200
    [50] [60] (by decide) rfl rfl (by decide) rfl rfl
    (List.Forall₂.cons (by decide) List.Forall₂.nil) rfl (by decide)
    rfl rfl (by decide) rfl rfl (by decide) rfl rfl (by decide)
    rfl rfl (by decide)

theorem max_core_preserves (e : Env) (w : World) :
    (sample_cpu_max_core e w).1.cpu = w.cpu ∧
    (sample_cpu_max_core e w).1.diskRead = w.diskRead ∧
    (sample_cpu_max_core e w).1.diskWrite = w.diskWrite ∧
    (sample_cpu_max_core e w).1.netRx = w.netRx ∧
    (sample_cpu_max_core e w).1.netTx = w.netTx := by
  cases h : e.coreBusy <;> simp [sample_cpu_max_core, h]

/-- C10: `Metrics.sample` builds a snapshot with exactly the eight keys in
the dictionary literal's order, each value coming from exactly one call to
the corresponding module-level sampler on the threaded Counter Store; the
result does not depend on the `_primed` flag (so `sample` succeeds without
a prior `prime`), and from an unprimed Counter Store every rate entry is
the absent value. -/
theorem metrics_sample_shape (m : Metrics) (e : Env) (w : World) (n : Nat) :
    Metrics.sample m e w = Metrics.sample Metrics.mk0 e w ∧
    (Metrics.sample m e w).2.map Prod.fst =
      ["cpu_pct", "cpu_max_core_pct", "ram", "gpus", "disk_read_mbps",
       "disk_write_mbps", "network_rx_mbps", "network_tx_mbps"] ∧
    (Metrics.sample m e w).2 =
      [("cpu_pct", MetricValue.num (sample_cpu e w).2),
       ("cpu_max_core_pct",
         MetricValue.num (sample_cpu_max_core e (sample_cpu e w).1).2),
       ("ram", MetricValue.ram (sample_ram e.mem)),
       ("gpus", MetricValue.gpuList (sample_all_gpus e.gpu)),
       ("disk_read_mbps", MetricValue.num (sample_disk_read e
         (sample_cpu_max_core e (sample_cpu e w).1).1).2),
       ("disk_write_mbps", MetricValue.num (sample_disk_write e
         (sample_disk_read e
           (sample_cpu_max_core e (sample_cpu e w).1).1).1).2),
       ("network_rx_mbps", MetricValue.num (sample_network_rx e
         (sample_disk_write e (sample_disk_read e
           (sample_cpu_max_core e (sample_cpu e w).1).1).1).1).2),
       ("network_tx_mbps", MetricValue.num (sample_network_tx e
         (sample_network_rx e (sample_disk_write e (sample_disk_read e
           (sample_cpu_max_core e (sample_cpu e w).1).1).1).1).1).2)] ∧
    (Metrics.sample m e (initWorld n)).2.map Prod.snd =
      [MetricValue.num none, MetricValue.num none,
       MetricValue.ram (sample_ram e.mem),
       MetricValue.gpuList (sample_all_gpus e.gpu),
       MetricValue.num none, MetricValue.num none, MetricValue.num none,
       MetricValue.num none] := by
  refine ⟨rfl, rfl, rfl, ?_⟩
  have hcpu : (sample_cpu e (initWorld n)).2 = none :=
    rateStep_val_unprimed _ _ _ _ rfl
  have hpres := max_core_preserves e (sample_cpu e (initWorld n)).1
  have hmc : (sample_cpu_max_core e (sample_cpu e (initWorld n)).1).2 =
      none := by
    cases hc : e.coreBusy with
    | none => simp [sample_cpu_max_core, hc]
    | some raws =>
      simp only [sample_cpu_max_core, hc]
      refine maxOfSamples_all_none _ (stepCores_values_unprimed e.now _ raws
        (fun s hs => ?_))
      have hs2 : s ∈ List.replicate n initStream := hs
      rw [List.eq_of_mem_replicate hs2]
      rfl
  have hdr : (sample_disk_read e
      (sample_cpu_max_core e (sample_cpu e (initWorld n)).1).1).2 = none := by
    refine rateStep_val_unprimed _ _ _ _ ?_
    rw [hpres.2.1]
    rfl
  have hdw : (sample_disk_write e (sample_disk_read e
      (sample_cpu_max_core e (sample_cpu e (initWorld n)).1).1).1).2 =
      none := by
    refine rateStep_val_unprimed _ _ _ _ ?_
    show ((sample_cpu_max_core e
      (sample_cpu e (initWorld n)).1).1.diskWrite).baseline = none
    rw [hpres.2.2.1]
    rfl
  have hnr : (sample_network_rx e (sample_disk_write e (sample_disk_read e
      (sample_cpu_max_core e (sample_cpu e (initWorld n)).1).1).1).1).2 =
      none := by
    refine rateStep_val_unprimed _ _ _ _ ?_
    show ((sample_cpu_max_core e
      (sample_cpu e (initWorld n)).1).1.netRx).baseline = none
    rw [hpres.2.2.2.1]
    rfl
  have hnt : (sample_network_tx e (sample_network_rx e (sample_disk_write e
      (sample_disk_read e (sample_cpu_max_core e
        (sample_cpu e (initWorld n)).1).1).1).1).1).2 = none := by
    refine rateStep_val_unprimed _ _ _ _ ?_
    show ((sample_cpu_max_core e
      (sample_cpu e (initWorld n)).1).1.netTx).baseline = none
    rw [hpres.2.2.2.2]
    rfl
  simp only [Metrics.sample, List.map_cons, List.map_nil]
  rw [hcpu, hmc, hdr, hdw, hnr, hnt]
